import Mathlib

set_option linter.unusedVariables false

/-!
Verification development for the Azure SNP vTPM evidence verifier
(`src/deps/verifier/src/az_snp_vtpm/mod.rs`).

The module's own logic (`evaluate`, `verify_nonce`, `verify_report_data`,
`verify_snp_report`, `verify_init_data`, `extend_claim`, `AzSnpVtpm::new`)
is embedded shallowly below.  External collaborators (serde, openssl,
the `az-snp-vtpm` and `sev` crates) are abstracted as fields of an `Env`
record: the embedded functions are parametric in those collaborators,
exactly as the Rust module is parametric in its linked crates.

Rust panics (out-of-bounds slice indexing, `copy_from_slice` length
mismatch) are modelled by a dedicated `panic` outcome, distinct from an
`Err` return.
-/

namespace AzVtpm

/-- Error values.  `CertError`'s variants are kept; `anyhow` models a
bare `anyhow::Error` message and `withContext` models
`anyhow::Context::context` wrapping. -/
inductive Err where
  | loadMilanCert
  | nonceMismatch
  | snpReportMismatch
  | vmplIncorrect (expected : Nat)
  | quoteError (msg : String)
  | jsonWebkey (msg : String)
  | anyhow (msg : String)
  | withContext (msg : String) (cause : Err)
  deriving DecidableEq

/-- Result of running a Rust function: normal return, error return, or
panic (unwinding). -/
inductive Outcome (α : Type) where
  | ok (a : α)
  | err (e : Err)
  | panic
  deriving DecidableEq

def Outcome.bind {α β : Type} : Outcome α → (α → Outcome β) → Outcome β
  | Outcome.ok a, f => f a
  | Outcome.err e, _ => Outcome.err e
  | Outcome.panic, _ => Outcome.panic

/-- Lift a fallible (non-panicking) call into `Outcome`, as the `?`
operator does. -/
def ofExcept {α : Type} : Except Err α → Outcome α
  | Except.ok a => Outcome.ok a
  | Except.error e => Outcome.err e

/-- `anyhow`'s `.context(msg)` on a `Result`. -/
def ctxE {α : Type} (msg : String) : Except Err α → Except Err α
  | Except.ok a => Except.ok a
  | Except.error e => Except.error (Err.withContext msg e)

/-- A TPM quote: the per-register SHA-256 bank exposed by
`pcrs_sha256()` and the (fallible) nonce accessor `nonce()`. -/
structure Quote where
  pcrs_sha256 : List (List Nat)
  nonce : Except Err (List Nat)

/-- The SNP attestation report fields this module reads:
`report_data` (64 bytes) and `vmpl`. -/
structure AttestationReport where
  report_data : List Nat
  vmpl : Nat

/-- The deserialized evidence: `{ quote, report, vcek }`. -/
structure Evidence where
  quote : Quote
  report : List Nat
  vcek : String

structure HclReport where
  bytes : List Nat

structure AkPub where
  key : List Nat

structure PKey where
  der : List Nat

structure Vcek where
  pem : String

structure VendorCertificates where
  chain : List (List Nat)

inductive CertType where
  | vcek
  | other
  deriving DecidableEq

structure CertTableEntry where
  cert_type : CertType
  data : List Nat

structure AzSnpVtpm where
  vendor_certs : VendorCertificates

/-- `ReportData<'a>`: `Value(&[u8])` or `NotProvided`. -/
inductive ReportData where
  | value (data : List Nat)
  | notProvided

/-- `InitDataHash<'a>`: `Value(&[u8])` or `NotProvided`. -/
inductive InitDataHash where
  | value (hash : List Nat)
  | notProvided

/-- `serde_json::Value`. -/
inductive Value where
  | null
  | bool (b : Bool)
  | num (n : Int)
  | str (s : String)
  | arr (elems : List Value)
  | obj (entries : List (String × Value))

abbrev TeeEvidenceParsedClaim := Value

/-- `serde_json::Map::insert`: replace in place if the key is present,
append otherwise. -/
def insertKV : List (String × Value) → String → Value → List (String × Value)
  | [], k, v => [(k, v)]
  | (k', v') :: rest, k, v =>
      if k' = k then (k, v) :: rest else (k', v') :: insertKV rest k v

/-- `serde_json::Map::get`. -/
def lookupKV : List (String × Value) → String → Option Value
  | [], _ => none
  | (k', v') :: rest, k => if k' = k then some v' else lookupKV rest k

/-- Lowercase hex digit for a nibble, as `hex::encode` produces. -/
def hexChar (n : Nat) : Char :=
  if n < 10 then Char.ofNat (48 + n) else Char.ofNat (87 + n)

/-- `hex::encode`: two lowercase hex chars per byte, high nibble first. -/
def hexEncodeChars : List Nat → List Char
  | [] => []
  | b :: rest => hexChar (b / 16 % 16) :: hexChar (b % 16) :: hexEncodeChars rest

def hexEncode (bytes : List Nat) : String :=
  String.mk (hexEncodeChars bytes)

/-- Decimal digit character (`'0' + d`). -/
def decDigitChar (d : Nat) : Char := Char.ofNat (48 + d)

/-- Decimal digits of `n`, most significant first, no leading zeros
(`n = 0` gives the empty list; the width-2 zero padding in `pcrKey`
restores Rust's `"00"`). -/
def decChars (n : Nat) : List Char := ((Nat.digits 10 n).map decDigitChar).reverse

/-- `format!("pcr{:02}", i)`: decimal `i` left-padded with `'0'` to a
minimum width of 2, after the literal `"pcr"`. -/
def pcrKey (i : Nat) : String :=
  String.mk ('p' :: 'c' :: 'r' :: (List.replicate (2 - (decChars i).length) '0' ++ decChars i))

/-- The `for (i, pcr) in pcrs.iter().enumerate()` loop body of
`extend_claim`, building the `"tpm"` map starting at index `i`. -/
def buildTpmFrom (i : Nat) (pcrs : List (List Nat)) (acc : List (String × Value)) :
    List (String × Value) :=
  match pcrs with
  | [] => acc
  | pcr :: rest => buildTpmFrom (i + 1) rest (insertKV acc (pcrKey i) (Value.str (hexEncode pcr)))

def buildTpm (pcrs : List (List Nat)) : List (String × Value) := buildTpmFrom 0 pcrs []

/-- External collaborators of the module, abstracted: serde_json
deserialization, the `az-snp-vtpm` crate's accessors, openssl, and the
`sev` crate's chain validation. -/
structure Env where
  deserializeEvidence : List Nat → Except Err Evidence
  hclReportNew : List Nat → Except Err HclReport
  akPub : HclReport → Except Err AkPub
  akPubTryToDer : AkPub → Except Err (List Nat)
  publicKeyFromDer : List Nat → Except Err PKey
  quoteVerifySignature : Quote → PKey → Except Err Unit
  quoteVerifyPcrs : Quote → Except Err Unit
  varDataSha256 : HclReport → List Nat
  hclToSnpReport : HclReport → Except Err AttestationReport
  vcekFromPem : String → Except Err Vcek
  vcekToDer : Vcek → Except Err (List Nat)
  verifyReportSignature :
    AttestationReport → List CertTableEntry → VendorCertificates → Except Err Unit
  sha256 : List Nat → List Nat
  parseTeeEvidence : AttestationReport → Value

def HCL_VMPL_VALUE : Nat := 0

def INITDATA_PCR : Nat := 8

/-- `AzSnpVtpm::new`, parametric in the outcome of
`load_milan_cert_chain()`.  A load failure is replaced by the bare
`CertError::LoadMilanCert`. -/
def AzSnpVtpm.new (load_milan_cert_chain : Except String VendorCertificates) :
    Except Err AzSnpVtpm :=
  match load_milan_cert_chain with
  | Except.error _ => Except.error Err.loadMilanCert
  | Except.ok vendor_certs => Except.ok ⟨vendor_certs⟩

/-- `verify_nonce`. -/
def verify_nonce (quote : Quote) (report_data : List Nat) : Except Err Unit :=
  match quote.nonce with
  | Except.error e => Except.error e
  | Except.ok nonce =>
      if nonce ≠ report_data then Except.error Err.nonceMismatch else Except.ok ()

/-- `verify_signature`. -/
def verify_signature (env : Env) (quote : Quote) (hcl_report : HclReport) : Except Err Unit := do
  let ak_pub ← ctxE "Failed to get AKpub" (env.akPub hcl_report)
  let der ← env.akPubTryToDer ak_pub
  let ak_pub ← ctxE "Failed to parse AKpub" (env.publicKeyFromDer der)
  ctxE "vTPM quote is not signed by AKpub" (env.quoteVerifySignature quote ak_pub)

/-- `verify_pcrs`. -/
def verify_pcrs (env : Env) (quote : Quote) : Except Err Unit :=
  ctxE "Digest of PCRs does not match digest in Quote" (env.quoteVerifyPcrs quote)

/-- `verify_report_data`: `*var_data_hash != snp_report.report_data[..32]`.
`report_data` is a fixed `[u8; 64]`, so the 32-slice never panics. -/
def verify_report_data (var_data_hash : List Nat) (snp_report : AttestationReport) :
    Except Err Unit :=
  if var_data_hash ≠ snp_report.report_data.take 32 then
    Except.error Err.snpReportMismatch
  else
    Except.ok ()

/-- `verify_snp_report`: chain validation first, then the VMPL check. -/
def verify_snp_report (env : Env) (snp_report : AttestationReport) (vcek : Vcek)
    (vendor_certs : VendorCertificates) : Except Err Unit := do
  let vcek_data ← ctxE "Failed to get raw VCEK data" (env.vcekToDer vcek)
  let cert_chain := [CertTableEntry.mk CertType.vcek vcek_data]
  let _ ← env.verifyReportSignature snp_report cert_chain vendor_certs
  if snp_report.vmpl ≠ HCL_VMPL_VALUE then
    Except.error (Err.vmplIncorrect HCL_VMPL_VALUE)
  else
    Except.ok ()

/-- `verify_init_data`.  `copy_from_slice` panics unless the provided
hash is exactly 32 bytes; `pcrs[INITDATA_PCR]` panics when the bank has
fewer than 9 registers. -/
def verify_init_data (sha256 : List Nat → List Nat) (expected : InitDataHash)
    (pcrs : List (List Nat)) : Outcome Unit :=
  match expected with
  | InitDataHash.notProvided => Outcome.ok ()
  | InitDataHash.value expected_init_data_hash =>
      if expected_init_data_hash.length ≠ 32 then Outcome.panic
      else
        match pcrs.get? INITDATA_PCR with
        | none => Outcome.panic
        | some init_data_pcr =>
            if sha256 (List.replicate 32 0 ++ expected_init_data_hash) ≠ init_data_pcr then
              Outcome.err (Err.anyhow
                "Expected init_data digest is different from the content of PCR8")
            else
              Outcome.ok ()

/-- `extend_claim`, in state-passing form: the returned `Value` is the
content of the `&mut` claim document when the call returns (or unwinds). -/
def extend_claim (claim : Value) (quote : Quote) : Outcome Unit × Value :=
  match claim with
  | Value.obj map =>
      let pcrs := quote.pcrs_sha256
      let tpm_values := buildTpm pcrs
      let map1 := insertKV map "tpm" (Value.obj tpm_values)
      match pcrs.get? INITDATA_PCR with
      | none => (Outcome.panic, Value.obj map1)
      | some pcr8 =>
          let map2 := insertKV map1 "init_data" (Value.str (hexEncode pcr8))
          match quote.nonce with
          | Except.error e => (Outcome.err e, Value.obj map2)
          | Except.ok n =>
              (Outcome.ok (),
               Value.obj (insertKV map2 "report_data" (Value.str (hexEncode n))))
  | other => (Outcome.err (Err.anyhow "failed to extend the claim, not an object"), other)

/-- `AzSnpVtpm::evaluate`. -/
def evaluate (env : Env) (self : AzSnpVtpm) (evidence : List Nat)
    (expected_report_data : ReportData) (expected_init_data_hash : InitDataHash) :
    Outcome Value :=
  match expected_report_data with
  | ReportData.notProvided => Outcome.err (Err.anyhow "unexpected empty report data")
  | ReportData.value expected_report_data =>
    Outcome.bind (ofExcept (ctxE "Failed to deserialize Azure vTPM SEV-SNP evidence"
        (env.deserializeEvidence evidence))) fun ev =>
    Outcome.bind (ofExcept (env.hclReportNew ev.report)) fun hcl_report =>
    Outcome.bind (ofExcept (verify_signature env ev.quote hcl_report)) fun _ =>
    Outcome.bind (ofExcept (verify_nonce ev.quote expected_report_data)) fun _ =>
    Outcome.bind (ofExcept (verify_pcrs env ev.quote)) fun _ =>
    let var_data_hash := env.varDataSha256 hcl_report
    Outcome.bind (ofExcept (env.hclToSnpReport hcl_report)) fun snp_report =>
    Outcome.bind (ofExcept (verify_report_data var_data_hash snp_report)) fun _ =>
    Outcome.bind (ofExcept (env.vcekFromPem ev.vcek)) fun vcek =>
    Outcome.bind (ofExcept (verify_snp_report env snp_report vcek self.vendor_certs)) fun _ =>
    let pcrs := ev.quote.pcrs_sha256
    Outcome.bind (verify_init_data env.sha256 expected_init_data_hash pcrs) fun _ =>
    let claim := env.parseTeeEvidence snp_report
    match extend_claim claim ev.quote with
    | (Outcome.ok _, claim) => Outcome.ok claim
    | (Outcome.err e, _) => Outcome.err e
    | (Outcome.panic, _) => Outcome.panic

/-- Lookup inside a JSON value: `v["k"]` on an object, `none` otherwise. -/
def valueLookup : Value → String → Option Value
  | Value.obj entries, k => lookupKV entries k
  | _, _ => none

/-! ### Basic reduction lemmas -/

@[simp]
theorem Outcome.bind_ok {α β : Type} (a : α) (f : α → Outcome β) :
    (Outcome.ok a).bind f = f a := rfl

@[simp]
theorem Outcome.bind_err {α β : Type} (e : Err) (f : α → Outcome β) :
    (Outcome.err e).bind f = Outcome.err e := rfl

@[simp]
theorem Outcome.bind_panic {α β : Type} (f : α → Outcome β) :
    (Outcome.panic : Outcome α).bind f = Outcome.panic := rfl

@[simp]
theorem ofExcept_ok {α : Type} (a : α) : ofExcept (Except.ok a : Except Err α) = Outcome.ok a := rfl

@[simp]
theorem ofExcept_error {α : Type} (e : Err) :
    ofExcept (Except.error e : Except Err α) = Outcome.err e := rfl

@[simp]
theorem ctxE_ok {α : Type} (msg : String) (a : α) :
    ctxE msg (Except.ok a : Except Err α) = Except.ok a := rfl

@[simp]
theorem ctxE_error {α : Type} (msg : String) (e : Err) :
    ctxE msg (Except.error e : Except Err α) = Except.error (Err.withContext msg e) := rfl

@[simp]
theorem except_bind_ok {α β : Type} (a : α) (f : α → Except Err β) :
    (Except.ok a >>= f) = f a := rfl

@[simp]
theorem except_bind_error {α β : Type} (e : Err) (f : α → Except Err β) :
    ((Except.error e : Except Err α) >>= f) = Except.error e := rfl

/-! ### Concrete collaborators used to instantiate hypotheses -/

/-- A quote with a 9-register bank of all-zero registers and a readable
nonce. -/
def quoteOk : Quote :=
  { pcrs_sha256 := List.replicate 9 (List.replicate 32 0), nonce := Except.ok [1, 2] }

/-- An environment in which every collaborator succeeds and the derived
hashes are consistent with each other. -/
def envOk : Env where
  deserializeEvidence := fun _ => Except.ok { quote := quoteOk, report := [], vcek := "pem" }
  hclReportNew := fun _ => Except.ok ⟨[]⟩
  akPub := fun _ => Except.ok ⟨[]⟩
  akPubTryToDer := fun _ => Except.ok []
  publicKeyFromDer := fun _ => Except.ok ⟨[]⟩
  quoteVerifySignature := fun _ _ => Except.ok ()
  quoteVerifyPcrs := fun _ => Except.ok ()
  varDataSha256 := fun _ => List.replicate 32 0
  hclToSnpReport := fun _ => Except.ok { report_data := List.replicate 64 0, vmpl := 0 }
  vcekFromPem := fun _ => Except.ok ⟨"pem"⟩
  vcekToDer := fun _ => Except.ok []
  verifyReportSignature := fun _ _ _ => Except.ok ()
  sha256 := fun _ => List.replicate 32 0
  parseTeeEvidence := fun _ => Value.obj []

/-- Like `envOk` but the SNP report signature validation fails. -/
def envSigFail : Env :=
  { envOk with verifyReportSignature := fun _ _ _ => Except.error (Err.anyhow "sig") }

/-! ### C3: HCL binding check -/

/-- C3: for every 32-byte variable-data digest and every report with a
64-byte `report_data`, `verify_report_data` succeeds iff the first 32
bytes of `report_data` equal the digest, and on inequality it returns
`SnpReportMismatch`. -/
theorem verify_report_data_iff (var_data_hash : List Nat) (snp : AttestationReport)
    (hlen : var_data_hash.length = 32) (hrd : snp.report_data.length = 64) :
    (verify_report_data var_data_hash snp = Except.ok () ↔
      snp.report_data.take 32 = var_data_hash) ∧
    (snp.report_data.take 32 ≠ var_data_hash →
      verify_report_data var_data_hash snp = Except.error Err.snpReportMismatch) := by
  unfold verify_report_data
  by_cases h : var_data_hash = snp.report_data.take 32 <;>
    simp [h, eq_comm]

/-- Witness for C3 at a concrete digest and report. -/
theorem verify_report_data_iff_w :
    ((verify_report_data (List.replicate 32 0) ⟨List.replicate 64 0, 0⟩ = Except.ok () ↔
      (List.replicate 64 (0 : Nat)).take 32 = List.replicate 32 0) ∧
    ((List.replicate 64 (0 : Nat)).take 32 ≠ List.replicate 32 0 →
      verify_report_data (List.replicate 32 0) ⟨List.replicate 64 0, 0⟩ =
        Except.error Err.snpReportMismatch)) :=
  verify_report_data_iff (List.replicate 32 0) ⟨List.replicate 64 0, 0⟩ (by simp) (by simp)

/-! ### C5: mandatory report data -/

/-- C5: with an absent `expected_report_data`, `evaluate` returns the
`unexpected empty report data` error immediately, and the result does
not depend on the evidence bytes at all. -/
theorem evaluate_empty_report_data (env : Env) (self : AzSnpVtpm) (evidence : List Nat)
    (eidh : InitDataHash) :
    evaluate env self evidence ReportData.notProvided eidh =
      Outcome.err (Err.anyhow "unexpected empty report data") ∧
    (∀ evidence' : List Nat,
      evaluate env self evidence ReportData.notProvided eidh =
        evaluate env self evidence' ReportData.notProvided eidh) :=
  ⟨rfl, fun _ => rfl⟩

/-! ### C9: construction error drops the underlying cause -/

/-- C9 counterexample: two different underlying load failures produce the
very same `LoadMilanCert` error value, so the returned error cannot carry
the specific underlying cause. -/
theorem new_discards_cause :
    AzSnpVtpm.new (Except.error "cause A") = Except.error Err.loadMilanCert ∧
    AzSnpVtpm.new (Except.error "cause B") = Except.error Err.loadMilanCert ∧
    ("cause A" : String) ≠ "cause B" :=
  ⟨rfl, rfl, by decide⟩

/-- C9 amended: whenever the vendor certificate chain cannot be loaded,
`new` returns the bare `LoadMilanCert` error, for every underlying
cause. -/
theorem new_loadMilanCert (cause : String) :
    AzSnpVtpm.new (Except.error cause) = Except.error Err.loadMilanCert := rfl

/-! ### C2: init-data binding formula -/

/-- C2 counterexample: on a PCR bank with fewer than 9 registers and a
present 32-byte hash, `verify_init_data` panics (out-of-bounds index on
`pcrs[8]`) instead of returning an error. -/
theorem verify_init_data_short_bank_panics :
    verify_init_data (fun l => l) (InitDataHash.value (List.replicate 32 0)) [] =
      Outcome.panic ∧
    (Outcome.panic : Outcome Unit) ≠
      Outcome.err (Err.anyhow
        "Expected init_data digest is different from the content of PCR8") ∧
    (Outcome.panic : Outcome Unit) ≠ Outcome.ok () :=
  ⟨by decide, fun h => Outcome.noConfusion h, fun h => Outcome.noConfusion h⟩

/-- C2 amended: for every present 32-byte hash `H` and every bank with at
least 9 registers, `verify_init_data` succeeds iff register 8 equals
`SHA256(0x00^32 ++ H)`, and on inequality it returns an error (it does
not panic); on banks with fewer than 9 registers it panics instead. -/
theorem verify_init_data_iff (sha256 : List Nat → List Nat) (h : List Nat)
    (pcrs : List (List Nat)) (hlen : h.length = 32) (hbank : 9 ≤ pcrs.length) :
    (verify_init_data sha256 (InitDataHash.value h) pcrs = Outcome.ok () ↔
      pcrs.get? 8 = some (sha256 (List.replicate 32 0 ++ h))) ∧
    (pcrs.get? 8 ≠ some (sha256 (List.replicate 32 0 ++ h)) →
      verify_init_data sha256 (InitDataHash.value h) pcrs =
        Outcome.err (Err.anyhow
          "Expected init_data digest is different from the content of PCR8")) := by
  have h8 : ∃ p, pcrs.get? 8 = some p := by
    cases hg : pcrs.get? 8 with
    | some p => exact ⟨p, rfl⟩
    | none =>
        rw [List.get?_eq_none] at hg
        omega
  obtain ⟨p, hp⟩ := h8
  have e1 : verify_init_data sha256 (InitDataHash.value h) pcrs =
      if sha256 (List.replicate 32 0 ++ h) ≠ p then
        Outcome.err (Err.anyhow
          "Expected init_data digest is different from the content of PCR8")
      else Outcome.ok () := by
    simp only [verify_init_data]
    rw [hlen, if_neg (not_not_intro rfl), show INITDATA_PCR = 8 from rfl, hp]
  rw [e1, hp]
  by_cases hd : sha256 (List.replicate 32 0 ++ h) = p
  · rw [if_neg (not_not_intro hd)]
    exact ⟨⟨fun _ => by rw [hd], fun _ => rfl⟩,
           fun hne => absurd (by rw [hd]) hne⟩
  · rw [if_pos hd]
    exact ⟨⟨fun he => Outcome.noConfusion he,
            fun hs => absurd (Option.some.inj hs).symm hd⟩,
           fun _ => rfl⟩

/-- Witness for C2's amended theorem at a concrete hash and bank. -/
theorem verify_init_data_iff_w :
    ((verify_init_data (fun _ => List.replicate 32 0)
        (InitDataHash.value (List.replicate 32 0))
        (List.replicate 9 (List.replicate 32 0)) = Outcome.ok () ↔
      (List.replicate 9 (List.replicate 32 (0 : Nat))).get? 8 =
        some ((fun _ => List.replicate 32 0)
          (List.replicate 32 (0 : Nat) ++ List.replicate 32 0))) ∧
    ((List.replicate 9 (List.replicate 32 (0 : Nat))).get? 8 ≠
        some ((fun _ => List.replicate 32 0)
          (List.replicate 32 (0 : Nat) ++ List.replicate 32 0)) →
      verify_init_data (fun _ => List.replicate 32 0)
        (InitDataHash.value (List.replicate 32 0))
        (List.replicate 9 (List.replicate 32 0)) =
        Outcome.err (Err.anyhow
          "Expected init_data digest is different from the content of PCR8"))) :=
  verify_init_data_iff (fun _ => List.replicate 32 0) (List.replicate 32 0)
    (List.replicate 9 (List.replicate 32 0)) (by simp) (by simp)

/-! ### C7: VMPL check -/

/-- C7 counterexample: with an invalid report signature and `vmpl = 1`,
`verify_snp_report` fails with the signature error, not with
`VmplIncorrect(0)`. -/
theorem verify_snp_report_sig_error_first :
    verify_snp_report envSigFail ⟨List.replicate 64 0, 1⟩ ⟨"pem"⟩ ⟨[]⟩ =
      Except.error (Err.anyhow "sig") ∧
    (⟨List.replicate 64 0, 1⟩ : AttestationReport).vmpl ≠ HCL_VMPL_VALUE ∧
    Err.anyhow "sig" ≠ Err.vmplIncorrect HCL_VMPL_VALUE :=
  ⟨rfl, by decide, by decide⟩

/-- C7 amended: a report with `vmpl ≠ 0` is always rejected (never `Ok`),
whatever the signature validation outcome; and when the VCEK re-encoding
and the signature validation succeed, the error is exactly
`VmplIncorrect(0)`. -/
theorem verify_snp_report_vmpl (env : Env) (snp : AttestationReport) (vcek : Vcek)
    (vendor_certs : VendorCertificates) (hv : snp.vmpl ≠ 0) :
    (∀ u : Unit, verify_snp_report env snp vcek vendor_certs ≠ Except.ok u) ∧
    (∀ d, env.vcekToDer vcek = Except.ok d →
      env.verifyReportSignature snp [CertTableEntry.mk CertType.vcek d] vendor_certs =
        Except.ok () →
      verify_snp_report env snp vcek vendor_certs =
        Except.error (Err.vmplIncorrect 0)) := by
  constructor
  · intro u
    unfold verify_snp_report
    cases hder : env.vcekToDer vcek with
    | error e => simp [hder]
    | ok d =>
      cases hsig : env.verifyReportSignature snp [CertTableEntry.mk CertType.vcek d]
          vendor_certs with
      | error e => simp [hder, hsig]
      | ok w =>
        simp [hder, hsig, HCL_VMPL_VALUE, hv]
  · intro d hder hsig
    unfold verify_snp_report
    simp [hder, hsig, HCL_VMPL_VALUE, hv]

/-- Witness for C7's amended theorem: `envOk` validates the signature,
yet a `vmpl = 1` report is rejected with `VmplIncorrect(0)`. -/
theorem verify_snp_report_vmpl_w :
    (∀ u : Unit,
      verify_snp_report envOk ⟨List.replicate 64 0, 1⟩ ⟨"pem"⟩ ⟨[]⟩ ≠ Except.ok u) ∧
    (∀ d, envOk.vcekToDer ⟨"pem"⟩ = Except.ok d →
      envOk.verifyReportSignature ⟨List.replicate 64 0, 1⟩
        [CertTableEntry.mk CertType.vcek d] ⟨[]⟩ = Except.ok () →
      verify_snp_report envOk ⟨List.replicate 64 0, 1⟩ ⟨"pem"⟩ ⟨[]⟩ =
        Except.error (Err.vmplIncorrect 0)) :=
  verify_snp_report_vmpl envOk ⟨List.replicate 64 0, 1⟩ ⟨"pem"⟩ ⟨[]⟩ (by decide)

/-! ### Map lemmas -/

theorem lookupKV_insertKV_self (m : List (String × Value)) (k : String) (v : Value) :
    lookupKV (insertKV m k v) k = some v := by
  induction m with
  | nil => simp [insertKV, lookupKV]
  | cons kv rest ih =>
      obtain ⟨k', v'⟩ := kv
      by_cases h : k' = k <;> simp [insertKV, lookupKV, h, ih]

theorem lookupKV_insertKV_ne (m : List (String × Value)) (k k' : String) (v : Value)
    (h : k' ≠ k) : lookupKV (insertKV m k v) k' = lookupKV m k' := by
  induction m with
  | nil => simp [insertKV, lookupKV, Ne.symm h]
  | cons kv rest ih =>
      obtain ⟨k'', v''⟩ := kv
      by_cases h2 : k'' = k
      · subst h2
        simp [insertKV, lookupKV, Ne.symm h]
      · by_cases h3 : k'' = k' <;> simp [insertKV, lookupKV, h2, h3, ih, h]

theorem lookupKV_insertKV_isSome (m : List (String × Value)) (k k' : String) (v : Value)
    (h : (lookupKV m k').isSome) : (lookupKV (insertKV m k v) k').isSome := by
  by_cases hk : k' = k
  · subst hk
    rw [lookupKV_insertKV_self]
    rfl
  · rw [lookupKV_insertKV_ne m k k' v hk]
    exact h

theorem length_insertKV_of_none (m : List (String × Value)) (k : String) (v : Value)
    (h : lookupKV m k = none) : (insertKV m k v).length = m.length + 1 := by
  induction m with
  | nil => simp [insertKV]
  | cons kv rest ih =>
      obtain ⟨k', v'⟩ := kv
      by_cases h2 : k' = k
      · subst h2
        simp [lookupKV] at h
      · simp only [lookupKV, if_neg h2] at h
        simp [insertKV, h2, ih h]

/-! ### C8: extend_claim only adds keys -/

/-- C8 counterexample: a received document that already has a `tpm` key
gets that key overwritten by `extend_claim`. -/
theorem extend_claim_overwrites_cex :
    (extend_claim (Value.obj [("tpm", Value.str "x")]) quoteOk).1 = Outcome.ok () ∧
    valueLookup (Value.obj [("tpm", Value.str "x")]) "tpm" = some (Value.str "x") ∧
    valueLookup (extend_claim (Value.obj [("tpm", Value.str "x")]) quoteOk).2 "tpm" ≠
      some (Value.str "x") := by
  refine ⟨rfl, rfl, ?_⟩
  rw [show valueLookup (extend_claim (Value.obj [("tpm", Value.str "x")]) quoteOk).2 "tpm" =
      some (Value.obj (buildTpm (List.replicate 9 (List.replicate 32 0)))) from rfl]
  intro h
  exact Value.noConfusion (Option.some.inj h)

/-- C8 amended: `extend_claim` never removes a key (every key present in
the received object is still present afterwards) and never overwrites
any key other than `tpm`, `init_data` and `report_data`; those three it
does overwrite when already present. -/
theorem extend_claim_adds_only (map : List (String × Value)) (quote : Quote) :
    (∀ k : String, k ≠ "tpm" → k ≠ "init_data" → k ≠ "report_data" →
      valueLookup (extend_claim (Value.obj map) quote).2 k = lookupKV map k) ∧
    (∀ k : String, (lookupKV map k).isSome →
      (valueLookup (extend_claim (Value.obj map) quote).2 k).isSome) := by
  cases hq : quote.pcrs_sha256.get? INITDATA_PCR with
  | none =>
      constructor
      · intro k h1 h2 h3
        simp only [extend_claim, hq, valueLookup]
        rw [lookupKV_insertKV_ne _ _ _ _ h1]
      · intro k hk
        simp only [extend_claim, hq, valueLookup]
        exact lookupKV_insertKV_isSome _ _ _ _ hk
  | some p8 =>
      cases hn : quote.nonce with
      | error e =>
          constructor
          · intro k h1 h2 h3
            simp only [extend_claim, hq, hn, valueLookup]
            rw [lookupKV_insertKV_ne _ _ _ _ h2, lookupKV_insertKV_ne _ _ _ _ h1]
          · intro k hk
            simp only [extend_claim, hq, hn, valueLookup]
            exact lookupKV_insertKV_isSome _ _ _ _
              (lookupKV_insertKV_isSome _ _ _ _ hk)
      | ok n =>
          constructor
          · intro k h1 h2 h3
            simp only [extend_claim, hq, hn, valueLookup]
            rw [lookupKV_insertKV_ne _ _ _ _ h3, lookupKV_insertKV_ne _ _ _ _ h2,
              lookupKV_insertKV_ne _ _ _ _ h1]
          · intro k hk
            simp only [extend_claim, hq, hn, valueLookup]
            exact lookupKV_insertKV_isSome _ _ _ _
              (lookupKV_insertKV_isSome _ _ _ _ (lookupKV_insertKV_isSome _ _ _ _ hk))

/-! ### C10: extend_claim is not atomic on error -/

/-- A quote whose nonce accessor fails, over a 9-register bank. -/
def quoteNoNonce : Quote :=
  { pcrs_sha256 := List.replicate 9 (List.replicate 32 0),
    nonce := Except.error (Err.quoteError "nonce") }

/-- C10: with an object root and a register-8-bearing bank, a nonce
extraction failure makes `extend_claim` return an error with the `tpm`
and `init_data` keys already inserted into the document; a non-object
root errors with the document unchanged. -/
theorem extend_claim_error_mutates (map : List (String × Value)) (quote : Quote) (e : Err)
    (p8 : List Nat) (h8 : quote.pcrs_sha256.get? INITDATA_PCR = some p8)
    (hn : quote.nonce = Except.error e) :
    extend_claim (Value.obj map) quote =
      (Outcome.err e,
       Value.obj (insertKV (insertKV map "tpm" (Value.obj (buildTpm quote.pcrs_sha256)))
         "init_data" (Value.str (hexEncode p8)))) ∧
    (∀ (v : Value) (q : Quote), (∀ m, v ≠ Value.obj m) →
      extend_claim v q =
        (Outcome.err (Err.anyhow "failed to extend the claim, not an object"), v)) := by
  constructor
  · simp only [extend_claim, h8, hn]
  · intro v q hv
    cases v with
    | obj m => exact absurd rfl (hv m)
    | null => rfl
    | bool b => rfl
    | num n => rfl
    | str s => rfl
    | arr l => rfl

/-- Witness for C10 at a concrete document and quote. -/
theorem extend_claim_error_mutates_w :
    (extend_claim (Value.obj []) quoteNoNonce =
      (Outcome.err (Err.quoteError "nonce"),
       Value.obj (insertKV (insertKV [] "tpm"
           (Value.obj (buildTpm quoteNoNonce.pcrs_sha256)))
         "init_data" (Value.str (hexEncode (List.replicate 32 0))))) ∧
    (∀ (v : Value) (q : Quote), (∀ m, v ≠ Value.obj m) →
      extend_claim v q =
        (Outcome.err (Err.anyhow "failed to extend the claim, not an object"), v))) :=
  extend_claim_error_mutates [] quoteNoNonce (Err.quoteError "nonce")
    (List.replicate 32 0) rfl rfl

/-! ### Injectivity of the `pcrNN` key format -/

theorem decDigitChar_lt_inj :
    ∀ a, a < 10 → ∀ b, b < 10 → decDigitChar a = decDigitChar b → a = b := by decide

theorem decDigitChar_ne_zero_char : ∀ d, d < 10 → d ≠ 0 → decDigitChar d ≠ '0' := by decide

theorem head?_decChars_ne_zero (n : Nat) : (decChars n).head? ≠ some '0' := by
  by_cases hn : n = 0
  · subst hn
    simp [decChars]
  · obtain h | ⟨L, d, hL⟩ := (Nat.digits 10 n).eq_nil_or_concat
    · exact absurd h (Nat.digits_ne_nil_iff_ne_zero.mpr hn)
    · have hmem : d ∈ Nat.digits 10 n := by
        rw [hL, List.concat_eq_append]
        simp
      have hd10 : d < 10 := Nat.digits_lt_base (by norm_num) hmem
      have hlast1 : (Nat.digits 10 n).getLast? = some d := by
        rw [hL, List.concat_eq_append]
        exact List.getLast?_concat _
      have hlast2 : (Nat.digits 10 n).getLast? =
          some ((Nat.digits 10 n).getLast (Nat.digits_ne_nil_iff_ne_zero.mpr hn)) :=
        List.getLast?_eq_getLast _ _
      have hdval : d = (Nat.digits 10 n).getLast (Nat.digits_ne_nil_iff_ne_zero.mpr hn) :=
        Option.some.inj (hlast1.symm.trans hlast2)
      have hdne : d ≠ 0 := by
        rw [hdval]
        exact Nat.getLast_digit_ne_zero 10 hn
      rw [decChars, hL, List.concat_eq_append]
      simp only [List.map_append, List.map_cons, List.map_nil, List.reverse_append,
        List.reverse_cons, List.reverse_nil, List.nil_append, List.singleton_append,
        List.head?_cons]
      intro hc
      exact decDigitChar_ne_zero_char d hd10 hdne (Option.some.inj hc)

theorem map_decDigitChar_cancel :
    ∀ (xs ys : List Nat), (∀ x ∈ xs, x < 10) → (∀ y ∈ ys, y < 10) →
      xs.map decDigitChar = ys.map decDigitChar → xs = ys := by
  intro xs
  induction xs with
  | nil =>
      intro ys _ _ h
      cases ys with
      | nil => rfl
      | cons b bs => simp at h
  | cons a as ih =>
      intro ys hx hy h
      cases ys with
      | nil => simp at h
      | cons b bs =>
          simp only [List.map_cons, List.cons.injEq] at h
          obtain ⟨h1, h2⟩ := h
          obtain rfl : a = b := decDigitChar_lt_inj a (hx a (by simp)) b (hy b (by simp)) h1
          rw [ih bs (fun x hm => hx x (by simp [hm])) (fun y hm => hy y (by simp [hm])) h2]

theorem dropWhile_zero_pad (a : Nat) (X : List Char) (hX : X.head? ≠ some '0') :
    (List.replicate a '0' ++ X).dropWhile (fun c => c == '0') = X := by
  induction a with
  | zero =>
      simp only [List.replicate, List.nil_append]
      cases X with
      | nil => rfl
      | cons c cs =>
          have hc : c ≠ '0' := fun h => hX (by rw [List.head?_cons, h])
          simp [List.dropWhile_cons, hc]
  | succ a ih =>
      simp only [List.replicate_succ, List.cons_append, List.dropWhile_cons]
      simpa using ih

theorem pcrKey_injective (i j : Nat) (h : pcrKey i = pcrKey j) : i = j := by
  have h2 := congrArg String.data h
  simp only [pcrKey, List.cons.injEq, true_and] at h2
  have hdw := congrArg (List.dropWhile (fun c => c == '0')) h2
  rw [dropWhile_zero_pad _ _ (head?_decChars_ne_zero i),
    dropWhile_zero_pad _ _ (head?_decChars_ne_zero j)] at hdw
  have hrev : (Nat.digits 10 i).map decDigitChar = (Nat.digits 10 j).map decDigitChar :=
    List.reverse_injective hdw
  have hdig : Nat.digits 10 i = Nat.digits 10 j :=
    map_decDigitChar_cancel _ _ (fun x hx => Nat.digits_lt_base (by norm_num) hx)
      (fun y hy => Nat.digits_lt_base (by norm_num) hy) hrev
  have hofd := congrArg (Nat.ofDigits 10) hdig
  rwa [Nat.ofDigits_digits, Nat.ofDigits_digits] at hofd

/-! ### buildTpm lemmas -/

theorem buildTpmFrom_lookup_other (pcrs : List (List Nat)) :
    ∀ (i : Nat) (acc : List (String × Value)) (k : String),
      (∀ j, i ≤ j → pcrKey j ≠ k) →
      lookupKV (buildTpmFrom i pcrs acc) k = lookupKV acc k := by
  induction pcrs with
  | nil => intro i acc k hk; simp [buildTpmFrom]
  | cons p rest ih =>
      intro i acc k hk
      simp only [buildTpmFrom]
      rw [ih (i + 1) _ _ (fun j hj => hk j (by omega))]
      exact lookupKV_insertKV_ne _ _ _ _ (Ne.symm (hk i le_rfl))

theorem buildTpmFrom_length (pcrs : List (List Nat)) :
    ∀ (i : Nat) (acc : List (String × Value)),
      (∀ j, i ≤ j → lookupKV acc (pcrKey j) = none) →
      (buildTpmFrom i pcrs acc).length = acc.length + pcrs.length := by
  induction pcrs with
  | nil => intro i acc h; simp [buildTpmFrom]
  | cons p rest ih =>
      intro i acc h
      simp only [buildTpmFrom]
      rw [ih (i + 1) _ ?fresh]
      · rw [length_insertKV_of_none _ _ _ (h i le_rfl)]
        simp only [List.length_cons]
        omega
      case fresh =>
        intro j hj
        rw [lookupKV_insertKV_ne _ _ _ _ ?ne]
        · exact h j (by omega)
        case ne =>
          intro he
          have := pcrKey_injective _ _ he
          omega

theorem buildTpmFrom_lookup (pcrs : List (List Nat)) :
    ∀ (i t : Nat) (acc : List (String × Value)) (pcr : List Nat),
      pcrs.get? t = some pcr →
      lookupKV (buildTpmFrom i pcrs acc) (pcrKey (i + t)) =
        some (Value.str (hexEncode pcr)) := by
  induction pcrs with
  | nil => intro i t acc pcr h; simp [List.get?] at h
  | cons p rest ih =>
      intro i t acc pcr h
      cases t with
      | zero =>
          obtain rfl : p = pcr := Option.some.inj (by simpa [List.get?] using h)
          simp only [buildTpmFrom, Nat.add_zero]
          rw [buildTpmFrom_lookup_other rest (i + 1) _ (pcrKey i)
            (fun j hj he => by have := pcrKey_injective _ _ he; omega)]
          exact lookupKV_insertKV_self _ _ _
      | succ t =>
          simp only [List.get?] at h
          simp only [buildTpmFrom]
          have harith : i + (t + 1) = (i + 1) + t := by omega
          rw [harith]
          exact ih (i + 1) t _ pcr h

theorem buildTpm_length (pcrs : List (List Nat)) : (buildTpm pcrs).length = pcrs.length := by
  have := buildTpmFrom_length pcrs 0 [] (fun j hj => rfl)
  simpa [buildTpm] using this

theorem buildTpm_lookup (pcrs : List (List Nat)) (t : Nat) (pcr : List Nat)
    (h : pcrs.get? t = some pcr) :
    lookupKV (buildTpm pcrs) (pcrKey t) = some (Value.str (hexEncode pcr)) := by
  have := buildTpmFrom_lookup pcrs 0 t [] pcr h
  simpa [buildTpm] using this

/-! ### Success characterization of evaluate -/

theorem evaluate_ok_iff (env : Env) (self : AzSnpVtpm) (evidence : List Nat)
    (rd : List Nat) (eidh : InitDataHash) (c : Value) :
    evaluate env self evidence (ReportData.value rd) eidh = Outcome.ok c ↔
    ∃ ev hcl snp vcek,
      env.deserializeEvidence evidence = Except.ok ev ∧
      env.hclReportNew ev.report = Except.ok hcl ∧
      verify_signature env ev.quote hcl = Except.ok () ∧
      verify_nonce ev.quote rd = Except.ok () ∧
      verify_pcrs env ev.quote = Except.ok () ∧
      env.hclToSnpReport hcl = Except.ok snp ∧
      verify_report_data (env.varDataSha256 hcl) snp = Except.ok () ∧
      env.vcekFromPem ev.vcek = Except.ok vcek ∧
      verify_snp_report env snp vcek self.vendor_certs = Except.ok () ∧
      verify_init_data env.sha256 eidh ev.quote.pcrs_sha256 = Outcome.ok () ∧
      extend_claim (env.parseTeeEvidence snp) ev.quote = (Outcome.ok (), c) := by
  constructor
  · intro h
    simp only [evaluate] at h
    cases h1 : env.deserializeEvidence evidence with
    | error e => rw [h1] at h; simp at h
    | ok ev =>
    rw [h1] at h
    simp only [ctxE_ok, ofExcept_ok, Outcome.bind_ok] at h
    cases h2 : env.hclReportNew ev.report with
    | error e => rw [h2] at h; simp at h
    | ok hcl =>
    rw [h2] at h
    simp only [ofExcept_ok, Outcome.bind_ok] at h
    cases h3 : verify_signature env ev.quote hcl with
    | error e => rw [h3] at h; simp at h
    | ok u3 =>
    cases u3
    rw [h3] at h
    simp only [ofExcept_ok, Outcome.bind_ok] at h
    cases h4 : verify_nonce ev.quote rd with
    | error e => rw [h4] at h; simp at h
    | ok u4 =>
    cases u4
    rw [h4] at h
    simp only [ofExcept_ok, Outcome.bind_ok] at h
    cases h5 : verify_pcrs env ev.quote with
    | error e => rw [h5] at h; simp at h
    | ok u5 =>
    cases u5
    rw [h5] at h
    simp only [ofExcept_ok, Outcome.bind_ok] at h
    cases h6 : env.hclToSnpReport hcl with
    | error e => rw [h6] at h; simp at h
    | ok snp =>
    rw [h6] at h
    simp only [ofExcept_ok, Outcome.bind_ok] at h
    cases h7 : verify_report_data (env.varDataSha256 hcl) snp with
    | error e => rw [h7] at h; simp at h
    | ok u7 =>
    cases u7
    rw [h7] at h
    simp only [ofExcept_ok, Outcome.bind_ok] at h
    cases h8 : env.vcekFromPem ev.vcek with
    | error e => rw [h8] at h; simp at h
    | ok vcek =>
    rw [h8] at h
    simp only [ofExcept_ok, Outcome.bind_ok] at h
    cases h9 : verify_snp_report env snp vcek self.vendor_certs with
    | error e => rw [h9] at h; simp at h
    | ok u9 =>
    cases u9
    rw [h9] at h
    simp only [ofExcept_ok, Outcome.bind_ok] at h
    cases h10 : verify_init_data env.sha256 eidh ev.quote.pcrs_sha256 with
    | err e => rw [h10] at h; simp at h
    | panic => rw [h10] at h; simp at h
    | ok u10 =>
    cases u10
    rw [h10] at h
    simp only [Outcome.bind_ok] at h
    cases hx : extend_claim (env.parseTeeEvidence snp) ev.quote with
    | mk o doc =>
    cases o with
    | err e => rw [hx] at h; simp at h
    | panic => rw [hx] at h; simp at h
    | ok ux =>
    cases ux
    rw [hx] at h
    simp only [Outcome.ok.injEq] at h
    subst h
    exact ⟨ev, hcl, snp, vcek, rfl, h2, h3, h4, h5, h6, h7, h8, h9, h10, hx⟩
  · rintro ⟨ev, hcl, snp, vcek, h1, h2, h3, h4, h5, h6, h7, h8, h9, h10, h11⟩
    simp only [evaluate, h1, h2, h3, h4, h5, h6, h7, h8, h9, h10, h11, ctxE_ok,
      ofExcept_ok, Outcome.bind_ok]

/-! ### C1: evaluate is all-or-nothing -/

/-- C1: a claim document is returned iff every check succeeded (first
conjunct, both directions), and whenever a verification step fails — all
earlier steps having succeeded — `evaluate` returns an error and no
claim document (remaining conjuncts, one per step). -/
theorem evaluate_all_or_nothing (env : Env) (self : AzSnpVtpm) (evidence : List Nat)
    (rd : List Nat) (eidh : InitDataHash) :
    (∀ c : Value,
      evaluate env self evidence (ReportData.value rd) eidh = Outcome.ok c ↔
      ∃ ev hcl snp vcek,
        env.deserializeEvidence evidence = Except.ok ev ∧
        env.hclReportNew ev.report = Except.ok hcl ∧
        verify_signature env ev.quote hcl = Except.ok () ∧
        verify_nonce ev.quote rd = Except.ok () ∧
        verify_pcrs env ev.quote = Except.ok () ∧
        env.hclToSnpReport hcl = Except.ok snp ∧
        verify_report_data (env.varDataSha256 hcl) snp = Except.ok () ∧
        env.vcekFromPem ev.vcek = Except.ok vcek ∧
        verify_snp_report env snp vcek self.vendor_certs = Except.ok () ∧
        verify_init_data env.sha256 eidh ev.quote.pcrs_sha256 = Outcome.ok () ∧
        extend_claim (env.parseTeeEvidence snp) ev.quote = (Outcome.ok (), c)) ∧
    (∀ e, env.deserializeEvidence evidence = Except.error e →
      evaluate env self evidence (ReportData.value rd) eidh =
        Outcome.err (Err.withContext "Failed to deserialize Azure vTPM SEV-SNP evidence" e)) ∧
    (∀ ev e, env.deserializeEvidence evidence = Except.ok ev →
      env.hclReportNew ev.report = Except.error e →
      evaluate env self evidence (ReportData.value rd) eidh = Outcome.err e) ∧
    (∀ ev hcl e, env.deserializeEvidence evidence = Except.ok ev →
      env.hclReportNew ev.report = Except.ok hcl →
      verify_signature env ev.quote hcl = Except.error e →
      evaluate env self evidence (ReportData.value rd) eidh = Outcome.err e) ∧
    (∀ ev hcl e, env.deserializeEvidence evidence = Except.ok ev →
      env.hclReportNew ev.report = Except.ok hcl →
      verify_signature env ev.quote hcl = Except.ok () →
      verify_nonce ev.quote rd = Except.error e →
      evaluate env self evidence (ReportData.value rd) eidh = Outcome.err e) ∧
    (∀ ev hcl e, env.deserializeEvidence evidence = Except.ok ev →
      env.hclReportNew ev.report = Except.ok hcl →
      verify_signature env ev.quote hcl = Except.ok () →
      verify_nonce ev.quote rd = Except.ok () →
      verify_pcrs env ev.quote = Except.error e →
      evaluate env self evidence (ReportData.value rd) eidh = Outcome.err e) ∧
    (∀ ev hcl e, env.deserializeEvidence evidence = Except.ok ev →
      env.hclReportNew ev.report = Except.ok hcl →
      verify_signature env ev.quote hcl = Except.ok () →
      verify_nonce ev.quote rd = Except.ok () →
      verify_pcrs env ev.quote = Except.ok () →
      env.hclToSnpReport hcl = Except.error e →
      evaluate env self evidence (ReportData.value rd) eidh = Outcome.err e) ∧
    (∀ ev hcl snp e, env.deserializeEvidence evidence = Except.ok ev →
      env.hclReportNew ev.report = Except.ok hcl →
      verify_signature env ev.quote hcl = Except.ok () →
      verify_nonce ev.quote rd = Except.ok () →
      verify_pcrs env ev.quote = Except.ok () →
      env.hclToSnpReport hcl = Except.ok snp →
      verify_report_data (env.varDataSha256 hcl) snp = Except.error e →
      evaluate env self evidence (ReportData.value rd) eidh = Outcome.err e) ∧
    (∀ ev hcl snp e, env.deserializeEvidence evidence = Except.ok ev →
      env.hclReportNew ev.report = Except.ok hcl →
      verify_signature env ev.quote hcl = Except.ok () →
      verify_nonce ev.quote rd = Except.ok () →
      verify_pcrs env ev.quote = Except.ok () →
      env.hclToSnpReport hcl = Except.ok snp →
      verify_report_data (env.varDataSha256 hcl) snp = Except.ok () →
      env.vcekFromPem ev.vcek = Except.error e →
      evaluate env self evidence (ReportData.value rd) eidh = Outcome.err e) ∧
    (∀ ev hcl snp vcek e, env.deserializeEvidence evidence = Except.ok ev →
      env.hclReportNew ev.report = Except.ok hcl →
      verify_signature env ev.quote hcl = Except.ok () →
      verify_nonce ev.quote rd = Except.ok () →
      verify_pcrs env ev.quote = Except.ok () →
      env.hclToSnpReport hcl = Except.ok snp →
      verify_report_data (env.varDataSha256 hcl) snp = Except.ok () →
      env.vcekFromPem ev.vcek = Except.ok vcek →
      verify_snp_report env snp vcek self.vendor_certs = Except.error e →
      evaluate env self evidence (ReportData.value rd) eidh = Outcome.err e) ∧
    (∀ ev hcl snp vcek e, env.deserializeEvidence evidence = Except.ok ev →
      env.hclReportNew ev.report = Except.ok hcl →
      verify_signature env ev.quote hcl = Except.ok () →
      verify_nonce ev.quote rd = Except.ok () →
      verify_pcrs env ev.quote = Except.ok () →
      env.hclToSnpReport hcl = Except.ok snp →
      verify_report_data (env.varDataSha256 hcl) snp = Except.ok () →
      env.vcekFromPem ev.vcek = Except.ok vcek →
      verify_snp_report env snp vcek self.vendor_certs = Except.ok () →
      verify_init_data env.sha256 eidh ev.quote.pcrs_sha256 = Outcome.err e →
      evaluate env self evidence (ReportData.value rd) eidh = Outcome.err e) := by
  refine ⟨fun c => evaluate_ok_iff env self evidence rd eidh c, ?_, ?_, ?_, ?_, ?_, ?_, ?_, ?_,
    ?_, ?_⟩
  · intro e h1
    simp only [evaluate, h1, ctxE_error, ofExcept_error, Outcome.bind_err]
  · intro ev e h1 h2
    simp only [evaluate, h1, h2, ctxE_ok, ofExcept_ok, Outcome.bind_ok, ofExcept_error,
      Outcome.bind_err]
  · intro ev hcl e h1 h2 h3
    simp only [evaluate, h1, h2, h3, ctxE_ok, ofExcept_ok, Outcome.bind_ok, ofExcept_error,
      Outcome.bind_err]
  · intro ev hcl e h1 h2 h3 h4
    simp only [evaluate, h1, h2, h3, h4, ctxE_ok, ofExcept_ok, Outcome.bind_ok, ofExcept_error,
      Outcome.bind_err]
  · intro ev hcl e h1 h2 h3 h4 h5
    simp only [evaluate, h1, h2, h3, h4, h5, ctxE_ok, ofExcept_ok, Outcome.bind_ok,
      ofExcept_error, Outcome.bind_err]
  · intro ev hcl e h1 h2 h3 h4 h5 h6
    simp only [evaluate, h1, h2, h3, h4, h5, h6, ctxE_ok, ofExcept_ok, Outcome.bind_ok,
      ofExcept_error, Outcome.bind_err]
  · intro ev hcl snp e h1 h2 h3 h4 h5 h6 h7
    simp only [evaluate, h1, h2, h3, h4, h5, h6, h7, ctxE_ok, ofExcept_ok, Outcome.bind_ok,
      ofExcept_error, Outcome.bind_err]
  · intro ev hcl snp e h1 h2 h3 h4 h5 h6 h7 h8
    simp only [evaluate, h1, h2, h3, h4, h5, h6, h7, h8, ctxE_ok, ofExcept_ok, Outcome.bind_ok,
      ofExcept_error, Outcome.bind_err]
  · intro ev hcl snp vcek e h1 h2 h3 h4 h5 h6 h7 h8 h9
    simp only [evaluate, h1, h2, h3, h4, h5, h6, h7, h8, h9, ctxE_ok, ofExcept_ok,
      Outcome.bind_ok, ofExcept_error, Outcome.bind_err]
  · intro ev hcl snp vcek e h1 h2 h3 h4 h5 h6 h7 h8 h9 h10
    simp only [evaluate, h1, h2, h3, h4, h5, h6, h7, h8, h9, h10, ctxE_ok, ofExcept_ok,
      Outcome.bind_ok, ofExcept_error, Outcome.bind_err]

/-- Witness for C1: in the all-success environment `envOk`, every check
passes and the claim document is produced, by the theorem's first
conjunct. -/
theorem evaluate_all_or_nothing_w :
    evaluate envOk ⟨⟨[]⟩⟩ [] (ReportData.value [1, 2]) InitDataHash.notProvided =
      Outcome.ok ((extend_claim (Value.obj []) quoteOk).2) :=
  ((evaluate_all_or_nothing envOk ⟨⟨[]⟩⟩ [] [1, 2] InitDataHash.notProvided).1
      ((extend_claim (Value.obj []) quoteOk).2)).mpr
    ⟨{ quote := quoteOk, report := [], vcek := "pem" }, ⟨[]⟩,
      { report_data := List.replicate 64 0, vmpl := 0 }, ⟨"pem"⟩,
      rfl, rfl, rfl, rfl, rfl, rfl, rfl, rfl, rfl, rfl, rfl⟩

/-! ### C6: absent init-data hash skips only that check -/

/-- C6: with an absent `expected_init_data_hash`, `verify_init_data`
succeeds without reading any PCR (first conjunct, for every bank), and
`evaluate` succeeds iff every remaining check succeeds — the init-data
binding imposes no condition, while all other steps are still
required. -/
theorem evaluate_skips_init_data (env : Env) (self : AzSnpVtpm) (evidence : List Nat)
    (rd : List Nat) (c : Value) :
    (∀ (sha256 : List Nat → List Nat) (pcrs : List (List Nat)),
      verify_init_data sha256 InitDataHash.notProvided pcrs = Outcome.ok ()) ∧
    (evaluate env self evidence (ReportData.value rd) InitDataHash.notProvided =
        Outcome.ok c ↔
      ∃ ev hcl snp vcek,
        env.deserializeEvidence evidence = Except.ok ev ∧
        env.hclReportNew ev.report = Except.ok hcl ∧
        verify_signature env ev.quote hcl = Except.ok () ∧
        verify_nonce ev.quote rd = Except.ok () ∧
        verify_pcrs env ev.quote = Except.ok () ∧
        env.hclToSnpReport hcl = Except.ok snp ∧
        verify_report_data (env.varDataSha256 hcl) snp = Except.ok () ∧
        env.vcekFromPem ev.vcek = Except.ok vcek ∧
        verify_snp_report env snp vcek self.vendor_certs = Except.ok () ∧
        extend_claim (env.parseTeeEvidence snp) ev.quote = (Outcome.ok (), c)) := by
  constructor
  · intro sha256 pcrs
    rfl
  · rw [evaluate_ok_iff]
    constructor
    · rintro ⟨ev, hcl, snp, vcek, h1, h2, h3, h4, h5, h6, h7, h8, h9, h10, h11⟩
      exact ⟨ev, hcl, snp, vcek, h1, h2, h3, h4, h5, h6, h7, h8, h9, h11⟩
    · rintro ⟨ev, hcl, snp, vcek, h1, h2, h3, h4, h5, h6, h7, h8, h9, h11⟩
      exact ⟨ev, hcl, snp, vcek, h1, h2, h3, h4, h5, h6, h7, h8, h9, rfl, h11⟩

/-! ### C4: contents of a successful claim document -/

/-- C4: on success, the claim document's `tpm` object is exactly the
`pcrNN`-keyed hex bank (one entry per register, so exactly N entries),
`init_data` is the hex of register 8, and `report_data` is the hex of
the quote's nonce. -/
theorem evaluate_claim_contents (env : Env) (self : AzSnpVtpm) (evidence : List Nat)
    (rd : List Nat) (eidh : InitDataHash) (c : Value) (ev : Evidence)
    (hdes : env.deserializeEvidence evidence = Except.ok ev)
    (hok : evaluate env self evidence (ReportData.value rd) eidh = Outcome.ok c) :
    valueLookup c "tpm" = some (Value.obj (buildTpm ev.quote.pcrs_sha256)) ∧
    (buildTpm ev.quote.pcrs_sha256).length = ev.quote.pcrs_sha256.length ∧
    (∀ (i : Nat) (pcr : List Nat), ev.quote.pcrs_sha256.get? i = some pcr →
      lookupKV (buildTpm ev.quote.pcrs_sha256) (pcrKey i) =
        some (Value.str (hexEncode pcr))) ∧
    (∀ p8, ev.quote.pcrs_sha256.get? INITDATA_PCR = some p8 →
      valueLookup c "init_data" = some (Value.str (hexEncode p8))) ∧
    (∀ n, ev.quote.nonce = Except.ok n →
      valueLookup c "report_data" = some (Value.str (hexEncode n))) := by
  obtain ⟨ev', hcl, snp, vcek, h1, h2, h3, h4, h5, h6, h7, h8, h9, h10, h11⟩ :=
    (evaluate_ok_iff env self evidence rd eidh c).mp hok
  obtain rfl : ev = ev' := Except.ok.inj (hdes.symm.trans h1)
  cases hp : env.parseTeeEvidence snp with
  | obj map =>
      rw [hp] at h11
      simp only [extend_claim] at h11
      cases hq : ev.quote.pcrs_sha256.get? INITDATA_PCR with
      | none => rw [hq] at h11; simp at h11
      | some p8 =>
          rw [hq] at h11
          cases hnn : ev.quote.nonce with
          | error e => rw [hnn] at h11; simp at h11
          | ok n =>
              rw [hnn] at h11
              simp only [Prod.mk.injEq, true_and] at h11
              obtain rfl := h11.symm
              refine ⟨?_, buildTpm_length _, fun i pcr hi => buildTpm_lookup _ _ _ hi,
                ?_, ?_⟩
              · show lookupKV _ "tpm" = _
                rw [lookupKV_insertKV_ne _ _ _ _ (by decide),
                  lookupKV_insertKV_ne _ _ _ _ (by decide), lookupKV_insertKV_self]
              · intro p8' h8'
                obtain rfl : p8' = p8 := (Option.some.inj h8').symm
                show lookupKV _ "init_data" = _
                rw [lookupKV_insertKV_ne _ _ _ _ (by decide), lookupKV_insertKV_self]
              · intro n' hnn'
                obtain rfl : n' = n := (Except.ok.inj hnn').symm
                show lookupKV _ "report_data" = _
                rw [lookupKV_insertKV_self]
  | null => rw [hp] at h11; simp [extend_claim] at h11
  | bool b => rw [hp] at h11; simp [extend_claim] at h11
  | num n => rw [hp] at h11; simp [extend_claim] at h11
  | str s => rw [hp] at h11; simp [extend_claim] at h11
  | arr l => rw [hp] at h11; simp [extend_claim] at h11

/-- Witness for C4 at the all-success environment `envOk`. -/
theorem evaluate_claim_contents_w :
    valueLookup ((extend_claim (Value.obj []) quoteOk).2) "tpm" =
      some (Value.obj (buildTpm quoteOk.pcrs_sha256)) ∧
    (buildTpm quoteOk.pcrs_sha256).length = quoteOk.pcrs_sha256.length ∧
    (∀ (i : Nat) (pcr : List Nat), quoteOk.pcrs_sha256.get? i = some pcr →
      lookupKV (buildTpm quoteOk.pcrs_sha256) (pcrKey i) =
        some (Value.str (hexEncode pcr))) ∧
    (∀ p8, quoteOk.pcrs_sha256.get? INITDATA_PCR = some p8 →
      valueLookup ((extend_claim (Value.obj []) quoteOk).2) "init_data" =
        some (Value.str (hexEncode p8))) ∧
    (∀ n, quoteOk.nonce = Except.ok n →
      valueLookup ((extend_claim (Value.obj []) quoteOk).2) "report_data" =
        some (Value.str (hexEncode n))) :=
  evaluate_claim_contents envOk ⟨⟨[]⟩⟩ [] [1, 2] InitDataHash.notProvided
    ((extend_claim (Value.obj []) quoteOk).2)
    { quote := quoteOk, report := [], vcek := "pem" } rfl rfl

end AzVtpm
